import Mathlib

/-!
Verification of the Fitness Analytics Engine of
`src/examples/python/common/data_utils.py`: a shallow embedding of
`FitnessDataProcessor.analyze_activity_distribution`,
`FitnessDataProcessor.calculate_training_metrics`,
`FitnessDataProcessor.calculate_fitness_score` and
`DataValidator.validate_activity_data`, followed by theorems settling the
spec's claims about them.

Python machine model used throughout:
* Python numbers (`int`, `float`, `bool`) are embedded as exact rationals.
  The claims under scrutiny only exercise values (small integers, halves)
  on which IEEE-754 doubles are exact, so the rational model agrees with
  CPython on every input any theorem or counterexample below evaluates.
* A Python runtime `TypeError` (for instance `"x" > 0`) is embedded as
  `Except.error "TypeError"`; code that cannot raise stays pure.
* Python dicts returned by the functions are embedded as structures;
  the degenerate empty-dict returns (`return {}`) become `Option.none`.
-/

namespace DataUtils

/-- A JSON-like Python value as it can appear in an activity mapping.
`pyDict`/`pyList` carry only their truthiness (whether they are non-empty);
none of the embedded functions inspects their contents. -/
inductive PyVal where
  | pyNone
  | pyBool (b : Bool)
  | pyInt (n : ℤ)
  | pyFloat (q : ℚ)
  | pyStr (s : String)
  | pyDict (ne : Bool)
  | pyList (ne : Bool)
deriving DecidableEq

/-- Python truthiness (`bool(v)`). -/
def PyVal.truthy : PyVal → Bool
  | .pyNone => false
  | .pyBool b => b
  | .pyInt n => n ≠ 0
  | .pyFloat q => q ≠ 0
  | .pyStr s => s ≠ ""
  | .pyDict ne => ne
  | .pyList ne => ne

/-- Numeric view: Python `bool`/`int`/`float` all take part in arithmetic
and comparisons; every other value yields `none` (arithmetic on it raises
`TypeError`). -/
def PyVal.toRat : PyVal → Option ℚ
  | .pyBool b => some (if b then 1 else 0)
  | .pyInt n => some (n : ℚ)
  | .pyFloat q => some q
  | _ => Option.none

/-- Python `str(v)` for the values that can reach the `str(sport)` coercion
(dicts are intercepted earlier by the `isinstance(sport, dict)` branch).
The textual form of numbers is a model approximation (CPython prints floats
differently); no claim depends on it. -/
def PyVal.pyStrOf : PyVal → String
  | .pyNone => "None"
  | .pyBool b => if b then "True" else "False"
  | .pyInt n => toString n
  | .pyFloat q => toString q
  | .pyStr s => s
  | .pyDict _ => "dict"
  | .pyList _ => "list"

/-- Python `v > k` against a numeric constant: numeric values compare,
anything else raises `TypeError`. -/
def pyGt (v : PyVal) (k : ℚ) : Except String Bool :=
  match v.toRat with
  | some q => .ok (decide (k < q))
  | Option.none => .error ("TypeError")

/-- Python short-circuit `b and v > k` (the comparison is only evaluated,
and so can only raise, when `b` holds). -/
def pyAndGt (b : Bool) (v : PyVal) (k : ℚ) : Except String Bool :=
  if b then pyGt v k else .ok false

/-- One raw activity mapping, restricted to the keys the embedded functions
read. `Option.none` models an absent key; `some v` a present key with raw
value `v` (which may itself be Python `None`, a string, a dict, ...). -/
structure Activity where
  sport_type : Option PyVal := Option.none
  distance_meters : Option PyVal := Option.none
  duration_seconds : Option PyVal := Option.none
  moving_time_seconds : Option PyVal := Option.none
  elevation_gain : Option PyVal := Option.none
  start_date : Option PyVal := Option.none
deriving DecidableEq

/-- `activity.get('sport_type', 'unknown')`. -/
def Activity.getSport (a : Activity) : PyVal :=
  Option.getD a.sport_type (.pyStr "unknown")

/-- `activity.get('moving_time_seconds', 0) or activity.get('duration_seconds', 0)`:
Python `or` returns the left operand when truthy, the right one otherwise. -/
def Activity.getDurationOr (a : Activity) : PyVal :=
  let m := Option.getD a.moving_time_seconds (.pyInt 0)
  if m.truthy then m else Option.getD a.duration_seconds (.pyInt 0)

/-- Sport normalization, lines 28-32 of the source: dicts become the
literal `"complex_sport_type"`, other non-strings are stringified,
strings pass through (`"unknown"` default already applied by `getSport`). -/
def normalizeSport (v : PyVal) : String :=
  match v with
  | .pyDict _ => "complex_sport_type"
  | .pyStr s => s
  | w => w.pyStrOf

/-- ASCII lowercasing (Python `str.lower()`; the sport strings the claims
exercise are ASCII), written over the character list so that it reduces
definitionally. -/
def strLower (s : String) : String := String.mk (s.data.map Char.toLower)

/-- The three intensity buckets. -/
inductive Intensity where
  | high
  | moderate
  | low
deriving DecidableEq

/-- Intensity classification of one activity, lines 37-48 of the source,
in the source's exact branch order with Python `and` short-circuiting:
`run` → high; `ride and duration > 1800` → high;
`hike/walk and duration > 1200` → moderate; `ride` → moderate; else low. -/
def classifyActivity (a : Activity) : Except String Intensity :=
  let sport := strLower (normalizeSport a.getSport)
  let d := a.getDurationOr
  if sport = "run" then .ok .high
  else
    match pyAndGt (sport = "ride") d 1800 with
    | .error e => .error e
    | .ok true => .ok .high
    | .ok false =>
      match pyAndGt (sport = "hike" || sport = "walk") d 1200 with
      | .error e => .error e
      | .ok true => .ok .moderate
      | .ok false => if sport = "ride" then .ok .moderate else .ok .low

/-- `sport_counts[sport] = sport_counts.get(sport, 0) + 1` over an
insertion-ordered association list (the embedding of a Python dict). -/
def bumpCount : List (String × ℕ) → String → List (String × ℕ)
  | [], s => [(s, 1)]
  | (k, n) :: rest, s =>
    if k = s then (k, n + 1) :: rest else (k, n) :: bumpCount rest s

/-- Result of `analyze_activity_distribution` on a non-empty batch. -/
structure DistResult where
  sport_distribution : List (String × ℕ)
  high_intensity : List Activity
  moderate_intensity : List Activity
  low_intensity : List Activity
deriving DecidableEq

/-- The accumulation loop of `analyze_activity_distribution` (lines 26-48):
count the normalized sport, then append the activity to the bucket chosen
by `classifyActivity`; a `TypeError` aborts the whole call. -/
def analyzeLoop : List Activity → DistResult → Except String DistResult
  | [], acc => .ok acc
  | a :: rest, acc =>
    let sport := normalizeSport a.getSport
    let acc1 : DistResult :=
      { acc with sport_distribution := bumpCount acc.sport_distribution sport }
    match classifyActivity a with
    | .error e => .error e
    | .ok .high =>
      analyzeLoop rest { acc1 with high_intensity := acc1.high_intensity ++ [a] }
    | .ok .moderate =>
      analyzeLoop rest { acc1 with moderate_intensity := acc1.moderate_intensity ++ [a] }
    | .ok .low =>
      analyzeLoop rest { acc1 with low_intensity := acc1.low_intensity ++ [a] }

/-- `FitnessDataProcessor.analyze_activity_distribution`: the empty batch
short-circuits to the empty dict (`Option.none`); otherwise the loop runs
from empty accumulators. -/
def analyze_activity_distribution (acts : List Activity) :
    Except String (Option DistResult) :=
  match acts with
  | [] => .ok Option.none
  | _ :: _ => (analyzeLoop acts ⟨[], [], [], []⟩).map some

/-- Proleptic-Gregorian leap year. -/
def isLeapYear (y : ℤ) : Bool := y % 4 = 0 ∧ (y % 100 ≠ 0 ∨ y % 400 = 0)

/-- Length of a month (0 for an out-of-range month index). -/
def daysInMonth (y : ℤ) (m : ℕ) : ℕ :=
  if m = 1 ∨ m = 3 ∨ m = 5 ∨ m = 7 ∨ m = 8 ∨ m = 10 ∨ m = 12 then 31
  else if m = 4 ∨ m = 6 ∨ m = 9 ∨ m = 11 then 30
  else if m = 2 then (if isLeapYear y then 29 else 28)
  else 0

/-- Days since 1970-01-01 of a civil date (standard era/year-of-era
conversion; the only property the claims use is that the mapping is exact,
so that differences of day numbers are calendar-day differences). -/
def civilToDay (y : ℤ) (m d : ℕ) : ℤ :=
  let y2 : ℤ := if m ≤ 2 then y - 1 else y
  let era : ℤ := (if 0 ≤ y2 then y2 else y2 - 399) / 400
  let yoe : ℤ := y2 - era * 400
  let mp : ℤ := ((m + 9) % 12 : ℕ)
  let doy : ℤ := (153 * mp + 2) / 5 + (d : ℤ) - 1
  let doe : ℤ := yoe * 365 + yoe / 4 - yoe / 100 + doy
  era * 146097 + doe - 719468

/-- A decimal digit, or `none`. -/
def digitOf (c : Char) : Option ℕ :=
  if c.isDigit then some (c.toNat - 48) else Option.none

/-- Model of `datetime.fromisoformat(date_str.replace('Z', '+00:00'))`
restricted to plain `YYYY-MM-DD` strings, returning the day number since
the epoch. Timestamps with a time-of-day part are not modelled and parse to
`none` (i.e. are treated like unparsable dates); no claim below evaluates
the pipeline on such a string, and the claims that quantify over all
batches do not depend on which strings parse. -/
def parseIsoDate (s : String) : Option ℤ :=
  match s.toList with
  | [y1, y2, y3, y4, s1, m1, m2, s2, d1, d2] =>
    if s1 = '-' ∧ s2 = '-' then
      match digitOf y1, digitOf y2, digitOf y3, digitOf y4,
            digitOf m1, digitOf m2, digitOf d1, digitOf d2 with
      | some a, some b, some c, some d, some e, some f, some g, some h =>
        let y : ℤ := (a * 1000 + b * 100 + c * 10 + d : ℕ)
        let mo : ℕ := e * 10 + f
        let da : ℕ := g * 10 + h
        if 1 ≤ mo ∧ mo ≤ 12 ∧ 1 ≤ da ∧ da ≤ daysInMonth y mo then
          some (civilToDay y mo da)
        else Option.none
      | _, _, _, _, _, _, _, _ => Option.none
    else Option.none
  | _ => Option.none

/-- Accumulators of the extraction loop of `calculate_training_metrics`
(lines 69-102): per-metric sample lists (in batch order), running totals,
and the successfully parsed dates. -/
structure MetricsAcc where
  distances : List ℚ
  durations : List ℚ
  elevations : List ℚ
  dates : List ℤ
  total_distance : ℚ
  total_duration : ℚ
  total_elevation : ℚ
deriving DecidableEq

/-- One `if value: samples.append(value / scale); total += value / scale`
step: a falsy value is skipped, a truthy non-numeric value raises
`TypeError` (in CPython at the division or the `+=`). -/
def addSample (v : PyVal) (scale : ℚ) (samples : List ℚ) (total : ℚ) :
    Except String (List ℚ × ℚ) :=
  if v.truthy then
    match v.toRat with
    | some q => .ok (samples ++ [q / scale], total + q / scale)
    | Option.none => .error ("TypeError")
  else .ok (samples, total)

/-- The `start_date` step, lines 98-102: a falsy value is skipped; the
parse attempt sits under a bare `except`, so a non-string value (whose
`.replace` raises `AttributeError`) and an unparsable string are both
silently dropped. -/
def addDate (v : PyVal) (dates : List ℤ) : List ℤ :=
  if v.truthy then
    match v with
    | .pyStr s =>
      match parseIsoDate s with
      | some d => dates ++ [d]
      | Option.none => dates
    | _ => dates
  else dates

/-- The extraction loop of `calculate_training_metrics`, lines 78-102,
processing `distance_meters`, the moving-or-duration seconds (scaled to
minutes), `elevation_gain` and `start_date` of each activity in order. -/
def metricsLoop : List Activity → MetricsAcc → Except String MetricsAcc
  | [], acc => .ok acc
  | a :: rest, acc =>
    match addSample (Option.getD a.distance_meters (.pyInt 0)) 1000
        acc.distances acc.total_distance with
    | .error e => .error e
    | .ok (ds, td) =>
      match addSample a.getDurationOr 60 acc.durations acc.total_duration with
      | .error e => .error e
      | .ok (us, tu) =>
        match addSample (Option.getD a.elevation_gain (.pyInt 0)) 1
            acc.elevations acc.total_elevation with
        | .error e => .error e
        | .ok (es, te) =>
          let dl := addDate (Option.getD a.start_date (.pyStr "")) acc.dates
          metricsLoop rest ⟨ds, us, es, dl, td, tu, te⟩

/-- `min` of a non-empty sample list (`0` placeholder for `[]`, which the
source guards against with `if distances else (0, 0)`). -/
def listMin : List ℚ → ℚ
  | [] => 0
  | x :: xs => xs.foldl min x

/-- `max` of a non-empty sample list. -/
def listMax : List ℚ → ℚ
  | [] => 0
  | x :: xs => xs.foldl max x

/-- `min` over the parsed dates: the source sorts and takes `dates[0]`. -/
def listMinZ : List ℤ → ℤ
  | [] => 0
  | x :: xs => xs.foldl min x

/-- `max` over the parsed dates: the source takes `dates[-1]` after sorting. -/
def listMaxZ : List ℤ → ℤ
  | [] => 0
  | x :: xs => xs.foldl max x

/-- `statistics.mean` of a non-empty sample list. -/
def listMean (l : List ℚ) : ℚ := l.foldl (fun x y => x + y) 0 / (l.length : ℚ)

/-- Result dict of `calculate_training_metrics` on a non-empty batch
(`totals`, `averages`, `frequency` and `ranges` flattened into one
structure). -/
structure MetricsResult where
  total_activities : ℕ
  total_distance_km : ℚ
  total_duration_hours : ℚ
  total_elevation_m : ℚ
  avg_distance_km : ℚ
  avg_duration_min : ℚ
  avg_elevation_m : ℚ
  activities_per_week : ℚ
  timespan_days : ℤ
  distance_range : ℚ × ℚ
  duration_range : ℚ × ℚ
deriving DecidableEq

/-- `FitnessDataProcessor.calculate_training_metrics` (lines 62-133): the
empty batch short-circuits to the empty dict (`Option.none`); otherwise
run the extraction loop, then compute the timespan as
`(dates[-1] - dates[0]).days + 1` over the sorted parsed dates and
`activities_per_week = len(activities) / (timespan_days / 7)`
(0 when no dates parse). -/
def calculate_training_metrics (acts : List Activity) :
    Except String (Option MetricsResult) :=
  match acts with
  | [] => .ok Option.none
  | _ :: _ =>
    match metricsLoop acts ⟨[], [], [], [], 0, 0, 0⟩ with
    | .error e => .error e
    | .ok acc =>
      let ts : ℤ :=
        if acc.dates.isEmpty then 0
        else listMaxZ acc.dates - listMinZ acc.dates + 1
      let apw : ℚ :=
        if acc.dates.isEmpty then 0
        else if 0 < ts then (acts.length : ℚ) / ((ts : ℚ) / 7) else 0
      .ok (some
        { total_activities := acts.length
          total_distance_km := acc.total_distance
          total_duration_hours := acc.total_duration / 60
          total_elevation_m := acc.total_elevation
          avg_distance_km := if acc.distances.isEmpty then 0 else listMean acc.distances
          avg_duration_min := if acc.durations.isEmpty then 0 else listMean acc.durations
          avg_elevation_m := if acc.elevations.isEmpty then 0 else listMean acc.elevations
          activities_per_week := apw
          timespan_days := ts
          distance_range :=
            if acc.distances.isEmpty then (0, 0)
            else (listMin acc.distances, listMax acc.distances)
          duration_range :=
            if acc.durations.isEmpty then (0, 0)
            else (listMin acc.durations, listMax acc.durations) })

/-- Python `int(q)`: truncation toward zero. -/
def pyTrunc (q : ℚ) : ℤ := if q < 0 then -Int.floor (-q) else Int.floor q

/-- Frequency component, lines 145-153 of the source: a step function of
`activities_per_week` with a `max(0, int(apw * 6))` tail below 3/week. -/
def frequency_score (apw : ℚ) : ℤ :=
  if 7 ≤ apw then 25
  else if 5 ≤ apw then 22
  else if 3 ≤ apw then 18
  else max 0 (pyTrunc (apw * 6))

/-- Intensity component, lines 155-171 of the source:
`int(h*25 + m*20 + (1-h-m)*10)` over the high/moderate fractions of the
classified activities (0 when there are none), clamped by `min(25, ...)`. -/
def intensity_score (dist : DistResult) : ℤ :=
  let total : ℕ := dist.high_intensity.length + dist.moderate_intensity.length
    + dist.low_intensity.length
  let base : ℤ :=
    if 0 < total then
      let hf : ℚ := (dist.high_intensity.length : ℚ) / (total : ℚ)
      let mf : ℚ := (dist.moderate_intensity.length : ℚ) / (total : ℚ)
      pyTrunc (hf * 25 + mf * 20 + (1 - hf - mf) * 10)
    else 0
  min 25 base

/-- Consistency component, lines 173-182 of the source: joint thresholds on
the timespan and the weekly frequency, defaulting to 15. -/
def consistency_score (timespan : ℤ) (apw : ℚ) : ℤ :=
  if 60 ≤ timespan ∧ 7 ≤ apw then 25
  else if 30 ≤ timespan ∧ 5 ≤ apw then 22
  else if 14 ≤ timespan ∧ 3 ≤ apw then 18
  else 15

/-- `needle in hay` on Python strings: occurrence as a contiguous substring. -/
def strContains (hay needle : String) : Bool :=
  (List.range (hay.length + 1)).any fun i => needle.toList.isPrefixOf (hay.toList.drop i)

/-- Variety component, lines 184-201 of the source: `min(3 * sports, 15)`
base over the distinct sport strings, `+8` when both a `"run"`-containing
and a `"ride"`-containing sport are present, `+2` when a hike / kayaking /
swim sport is present, clamped by `min(25, ...)`. -/
def variety_score (sport_distribution : List (String × ℕ)) : ℤ :=
  let sport_count : ℤ := sport_distribution.length
  let base : ℤ := min (sport_count * 3) 15
  let sports := sport_distribution.map Prod.fst
  let has_running := sports.any fun s => strContains (strLower s) "run"
  let has_cycling := sports.any fun s => strContains (strLower s) "ride"
  let has_other_cardio := sports.any fun s =>
    strLower s = "hike" ∨ strLower s = "kayaking" ∨ strLower s = "swim"
  let bonus : ℤ := (if has_running ∧ has_cycling then 8 else 0)
    + (if has_other_cardio then 2 else 0)
  min 25 (base + bonus)

/-- Insight generation, lines 205-227 of the source: one tier statement by
total score, then component-threshold bonus insights in a fixed order. -/
def insightsFor (total f i c v : ℤ) : List String :=
  (if 90 ≤ total then ["ELITE fitness level - exceptional commitment and performance"]
   else if 80 ≤ total then ["EXCELLENT fitness level - serious athlete dedication"]
   else if 70 ≤ total then ["GOOD fitness level - committed recreational athlete"]
   else ["DEVELOPING fitness - building consistent training base"])
  ++ (if 23 ≤ f then ["Outstanding training frequency - daily activity pattern"] else [])
  ++ (if 20 ≤ i then ["Excellent intensity balance - quality training distribution"] else [])
  ++ (if 23 ≤ c then ["Exceptional consistency - sustained long-term commitment"] else [])
  ++ (if 20 ≤ v then ["Great sport variety - well-rounded athletic development"] else [])

/-- The four component scores. -/
structure ScoreComponents where
  frequency : ℤ
  intensity : ℤ
  consistency : ℤ
  variety : ℤ
deriving DecidableEq

/-- Result dict of `calculate_fitness_score` on a non-empty batch. -/
structure ScoreResultFull where
  total_score : ℤ
  components : ScoreComponents
  insights : List String
  metrics : MetricsResult
  distribution : DistResult
deriving DecidableEq

/-- Result of `calculate_fitness_score`: `empty` embeds the
`{'total_score': 0, 'components': {}, 'insights': []}` dict returned for
the empty batch (it has no metrics/distribution keys and its components
dict is empty, so it is a distinct shape from `full`). -/
inductive ScoreResult where
  | empty
  | full (r : ScoreResultFull)
deriving DecidableEq

/-- Assembly of the non-empty-batch score result, lines 144-240 of the
source, from the already computed distribution and metrics dicts. -/
def mkScore (dist : DistResult) (met : MetricsResult) : ScoreResultFull :=
  let f := frequency_score met.activities_per_week
  let i := intensity_score dist
  let c := consistency_score met.timespan_days met.activities_per_week
  let v := variety_score dist.sport_distribution
  { total_score := f + i + c + v
    components := ⟨f, i, c, v⟩
    insights := insightsFor (f + i + c + v) f i c v
    metrics := met
    distribution := dist }

/-- `FitnessDataProcessor.calculate_fitness_score` (lines 135-240): empty
batch short-circuits; otherwise the distribution and metrics calls run
(either may raise `TypeError`), and the score is assembled from their
results. On a non-empty batch those calls never return the empty dict;
the `"KeyError"` arms keep the model total on that unreachable shape. -/
def calculate_fitness_score (acts : List Activity) : Except String ScoreResult :=
  match acts with
  | [] => .ok .empty
  | _ :: _ =>
    match analyze_activity_distribution acts with
    | .error e => .error e
    | .ok Option.none => .error ("KeyError")
    | .ok (some dist) =>
      match calculate_training_metrics acts with
      | .error e => .error e
      | .ok Option.none => .error ("KeyError")
      | .ok (some met) => .ok (.full (mkScore dist met))

/-- Round half to even (CPython float formatting rounding). -/
def roundHalfEven (q : ℚ) : ℤ :=
  let f := Int.floor q
  let r := q - (f : ℚ)
  if r < 1/2 then f
  else if 1/2 < r then f + 1
  else if f % 2 = 0 then f else f + 1

/-- Model of the f-string percentage format `{ratio:.1%}`: the ratio times
100, one decimal digit, and a percent sign, rounding half to even in exact
arithmetic (CPython rounds the nearest binary double instead; every string
a theorem below evaluates is exact in both). -/
def fmtPct (q : ℚ) : String :=
  let n := roundHalfEven (q * 1000)
  toString (n / 10) ++ "." ++ toString (n % 10) ++ "%"

/-- `a.get('distance_meters', 0) > 0` counted over the batch, front to
back; a non-numeric present value raises `TypeError` (line 354). -/
def countDistanceOk : List Activity → Except String ℕ
  | [] => .ok 0
  | a :: rest =>
    match pyGt (Option.getD a.distance_meters (.pyInt 0)) 0 with
    | .error e => .error e
    | .ok b =>
      match countDistanceOk rest with
      | .error e => .error e
      | .ok n => .ok ((if b then 1 else 0) + n)

/-- `a.get('moving_time_seconds', 0) > 0 or a.get('duration_seconds', 0) > 0`
for one activity, with Python `or` short-circuiting (lines 355-356). -/
def durationPresent (a : Activity) : Except String Bool :=
  match pyGt (Option.getD a.moving_time_seconds (.pyInt 0)) 0 with
  | .error e => .error e
  | .ok true => .ok true
  | .ok false => pyGt (Option.getD a.duration_seconds (.pyInt 0)) 0

/-- The duration-presence count over the batch. -/
def countDurationOk : List Activity → Except String ℕ
  | [] => .ok 0
  | a :: rest =>
    match durationPresent a with
    | .error e => .error e
    | .ok b =>
      match countDurationOk rest with
      | .error e => .error e
      | .ok n => .ok ((if b then 1 else 0) + n)

/-- `sum(1 for a in activities if a.get('sport_type'))` (line 357):
truthiness of the raw value, `None` when the key is absent; never raises. -/
def countSport (acts : List Activity) : ℕ :=
  (acts.filter fun a => (Option.getD a.sport_type .pyNone).truthy).length

/-- `sum(1 for a in activities if a.get('start_date'))` (line 358). -/
def countDate (acts : List Activity) : ℕ :=
  (acts.filter fun a => (Option.getD a.start_date .pyNone).truthy).length

/-- Result dict of `DataValidator.validate_activity_data`; `completeness`
is `Option.none` on the empty-batch branch, which returns a dict without a
`completeness` key. -/
structure ValidationResult where
  valid : Bool
  quality_score : ℚ
  completeness : Option (ℚ × ℚ × ℚ × ℚ)
  issues : List String
deriving DecidableEq

/-- `DataValidator.validate_activity_data` (lines 341-387): empty batch
short-circuits; otherwise the four presence counts are taken (distance and
duration may raise `TypeError`), each ratio below its fixed threshold
appends its formatted issue string, `quality_score` is the mean of the
four ratios times 100 and `valid` is `quality_score >= 70`. -/
def validate_activity_data (acts : List Activity) : Except String ValidationResult :=
  match acts with
  | [] => .ok ⟨false, 0, Option.none, ["No activities provided"]⟩
  | _ :: _ =>
    match countDistanceOk acts with
    | .error e => .error e
    | .ok cd =>
      match countDurationOk acts with
      | .error e => .error e
      | .ok cu =>
        let n : ℚ := (acts.length : ℚ)
        let dp : ℚ := (cd : ℚ) / n
        let up : ℚ := (cu : ℚ) / n
        let sp : ℚ := (countSport acts : ℚ) / n
        let tp : ℚ := (countDate acts : ℚ) / n
        let issues : List String :=
          (if dp < 4/5 then ["Low distance completeness: " ++ fmtPct dp] else [])
          ++ (if up < 9/10 then ["Low duration completeness: " ++ fmtPct up] else [])
          ++ (if sp < 19/20 then ["Low sport type completeness: " ++ fmtPct sp] else [])
          ++ (if tp < 19/20 then ["Low date completeness: " ++ fmtPct tp] else [])
        let quality : ℚ := (dp + up + sp + tp) / 4 * 100
        .ok ⟨decide ((70 : ℚ) ≤ quality), quality, some (dp, up, sp, tp), issues⟩

/-! Spec-side definitions (written from the spec's words, for the
refinement claims that compare them against the source embedding). -/

/-- Written from the spec's words for claim C6: the intensity bucket as a
first-match-wins precedence list over the normalized sport string and the
moving-or-duration seconds `d`. -/
def specClassify (sport : String) (d : ℚ) : Intensity :=
  if strLower sport = "run" then .high
  else if strLower sport = "ride" ∧ 1800 < d then .high
  else if (strLower sport = "hike" ∨ strLower sport = "walk") ∧ 1200 < d then .moderate
  else if strLower sport = "ride" then .moderate
  else .low

/-- Written from the spec's words for claim C3: the intensity component as
`round(h*25 + m*20 + (1-h-m)*10)` (round to nearest) clamped to at most 25.
`round` rounds halves up where CPython rounds them to even; the
counterexample below sits at `17.5`, where both conventions give `18`. -/
def specIntensityScore (h m : ℚ) : ℤ :=
  min 25 (round (h * 25 + m * 20 + (1 - h - m) * 10))

/-! Auxiliary definitions for stating the claims: result extractors,
the safety predicate of the amended totality claim, and the concrete
batches evaluated by witnesses and counterexamples. -/

/-- The all-zero metrics record (what a "metrics result with all totals
zero" would have to be). -/
def zeroMetrics : MetricsResult := ⟨0, 0, 0, 0, 0, 0, 0, 0, 0, (0, 0), (0, 0)⟩

/-- The empty distribution accumulator. -/
def emptyDist : DistResult := ⟨[], [], [], []⟩

/-- The non-empty-batch score record of `calculate_fitness_score`, with a
harmless placeholder on the other branches (used only to name the record
produced on concrete inputs). -/
def scoreOf (acts : List Activity) : ScoreResultFull :=
  match calculate_fitness_score acts with
  | .ok (.full s) => s
  | _ => mkScore emptyDist zeroMetrics

/-- The non-empty-batch metrics record on concrete inputs. -/
def metricsOf (acts : List Activity) : MetricsResult :=
  match calculate_training_metrics acts with
  | .ok (some m) => m
  | _ => zeroMetrics

/-- The non-empty-batch distribution record on concrete inputs. -/
def distOf (acts : List Activity) : DistResult :=
  match analyze_activity_distribution acts with
  | .ok (some d) => d
  | _ => emptyDist

/-- The validation record on concrete inputs. -/
def validationOf (acts : List Activity) : ValidationResult :=
  match validate_activity_data acts with
  | .ok r => r
  | .error _ => ⟨false, 0, Option.none, []⟩

/-- An optional field value that cannot make arithmetic raise: absent, or
present and numeric. -/
def numericOrAbsent : Option PyVal → Bool
  | Option.none => true
  | some v => (PyVal.toRat v).isSome

/-- An activity none of whose arithmetic-bearing fields (distance,
duration, moving time, elevation) holds a non-numeric present value;
`sport_type` and `start_date` remain arbitrary. -/
def SafeActivity (a : Activity) : Bool :=
  numericOrAbsent a.distance_meters && numericOrAbsent a.duration_seconds
    && numericOrAbsent a.moving_time_seconds && numericOrAbsent a.elevation_gain

/-- One activity of the claim C2 example batch: sport `"Run"`,
5000 m, 1800 s, on day `2024-01-(d+1)`. -/
def runActivity (day : ℕ) : Activity :=
  { sport_type := some (.pyStr "Run")
    distance_meters := some (.pyInt 5000)
    duration_seconds := some (.pyInt 1800)
    start_date := some (.pyStr ("2024-01-0" ++ toString (day + 1))) }

/-- The claim C2 example batch: 7 `"Run"` activities, one per day over 7
consecutive days. -/
def batchC2 : List Activity :=
  [runActivity 0, runActivity 1, runActivity 2, runActivity 3,
   runActivity 4, runActivity 5, runActivity 6]

/-- Counterexample batch for claim C3: one `"Run"` (high) and one `"Walk"`
with no duration (low), giving high fraction `1/2` and moderate fraction
`0`; the intensity expression is exactly `17.5`, on which `int()` and
`round()` disagree. -/
def batchC3 : List Activity :=
  [{ sport_type := some (.pyStr "Run") }, { sport_type := some (.pyStr "Walk") }]

/-- Counterexample activity for claim C5: a string-typed
`distance_meters`, on which CPython raises `TypeError` at
`distance_m / 1000` and at `a.get('distance_meters', 0) > 0`. -/
def badActivity : Activity := { distance_meters := some (.pyStr "5000") }

/-- An activity with every field absent. -/
def emptyActivity : Activity := {}

/-- A fully-populated well-typed activity (witness input). -/
def fullActivity : Activity :=
  { sport_type := some (.pyStr "Ride")
    distance_meters := some (.pyInt 20000)
    duration_seconds := some (.pyInt 3600)
    elevation_gain := some (.pyInt 150)
    start_date := some (.pyStr "2024-03-05") }

/-- A safe activity with junk in the non-arithmetic fields: `sport_type`
is a dict and `start_date` an unparsable string (witness input for the
amended totality claim). -/
def junkSafeActivity : Activity :=
  { sport_type := some (.pyDict true)
    distance_meters := some (.pyBool true)
    duration_seconds := some (.pyFloat (1/2))
    start_date := some (.pyStr "not-a-date") }

/-! Helper lemmas about Python truncation and the component scores. -/

theorem pyTrunc_eq_floor {q : ℚ} (h : 0 ≤ q) : pyTrunc q = ⌊q⌋ := by
  unfold pyTrunc
  rw [if_neg (not_lt.mpr h)]

theorem pyTrunc_nonpos_of_neg {q : ℚ} (h : q < 0) : pyTrunc q ≤ 0 := by
  unfold pyTrunc
  rw [if_pos h]
  have h0 : (0 : ℤ) ≤ ⌊-q⌋ := Int.le_floor.mpr (by push_cast; linarith)
  omega

theorem le_pyTrunc {n : ℤ} {q : ℚ} (hn : 0 ≤ n) (h : (n : ℚ) ≤ q) : n ≤ pyTrunc q := by
  have hq : (0 : ℚ) ≤ q := le_trans (by exact_mod_cast hn) h
  rw [pyTrunc_eq_floor hq]
  exact Int.le_floor.mpr h

theorem pyTrunc_lt {n : ℤ} {q : ℚ} (hn : 0 < n) (h : q < (n : ℚ)) : pyTrunc q < n := by
  rcases lt_or_le q 0 with hq | hq
  · exact lt_of_le_of_lt (pyTrunc_nonpos_of_neg hq) hn
  · rw [pyTrunc_eq_floor hq]
    exact Int.floor_lt.mpr h

theorem frequency_score_eq_25 {q : ℚ} (h : 7 ≤ q) : frequency_score q = 25 := by
  unfold frequency_score
  rw [if_pos h]

theorem frequency_score_eq_22 {q : ℚ} (h5 : 5 ≤ q) (h7 : ¬ (7 : ℚ) ≤ q) :
    frequency_score q = 22 := by
  unfold frequency_score
  rw [if_neg h7, if_pos h5]

theorem frequency_score_eq_18 {q : ℚ} (h3 : 3 ≤ q) (h5 : ¬ (5 : ℚ) ≤ q) :
    frequency_score q = 18 := by
  unfold frequency_score
  rw [if_neg (fun h => h5 (by linarith)), if_neg h5, if_pos h3]

theorem frequency_score_eq_bottom {q : ℚ} (h3 : ¬ (3 : ℚ) ≤ q) :
    frequency_score q = max 0 (pyTrunc (q * 6)) := by
  unfold frequency_score
  rw [if_neg (fun h => h3 (by linarith)), if_neg (fun h => h3 (by linarith)), if_neg h3]

theorem frequency_bottom_le_17 {q : ℚ} (h : q < 3) : max 0 (pyTrunc (q * 6)) ≤ 17 := by
  refine max_le (by norm_num) ?_
  have h18 : q * 6 < ((18 : ℤ) : ℚ) := by push_cast; linarith
  have := pyTrunc_lt (by norm_num) h18
  omega

theorem frequency_score_nonneg (q : ℚ) : 0 ≤ frequency_score q := by
  unfold frequency_score
  split_ifs <;> norm_num

theorem frequency_score_le_25 (q : ℚ) : frequency_score q ≤ 25 := by
  rcases le_or_lt 7 q with h7 | h7
  · rw [frequency_score_eq_25 h7]
  rcases le_or_lt 5 q with h5 | h5
  · rw [frequency_score_eq_22 h5 (not_le.mpr h7)]; norm_num
  rcases le_or_lt 3 q with h3 | h3
  · rw [frequency_score_eq_18 h3 (not_le.mpr h5)]; norm_num
  · rw [frequency_score_eq_bottom (not_le.mpr h3)]
    have := frequency_bottom_le_17 h3
    omega

theorem frequency_score_mono {x y : ℚ} (hx : 0 ≤ x) (hxy : x ≤ y) :
    frequency_score x ≤ frequency_score y := by
  rcases le_or_lt 7 x with h7x | h7x
  · rw [frequency_score_eq_25 h7x, frequency_score_eq_25 (le_trans h7x hxy)]
  rcases le_or_lt 5 x with h5x | h5x
  · rw [frequency_score_eq_22 h5x (not_le.mpr h7x)]
    rcases le_or_lt 7 y with h7y | h7y
    · rw [frequency_score_eq_25 h7y]; norm_num
    · rw [frequency_score_eq_22 (le_trans h5x hxy) (not_le.mpr h7y)]
  rcases le_or_lt 3 x with h3x | h3x
  · rw [frequency_score_eq_18 h3x (not_le.mpr h5x)]
    rcases le_or_lt 7 y with h7y | h7y
    · rw [frequency_score_eq_25 h7y]; norm_num
    rcases le_or_lt 5 y with h5y | h5y
    · rw [frequency_score_eq_22 h5y (not_le.mpr h7y)]; norm_num
    · rw [frequency_score_eq_18 (le_trans h3x hxy) (not_le.mpr h5y)]
  · rw [frequency_score_eq_bottom (not_le.mpr h3x)]
    rcases le_or_lt 3 y with h3y | h3y
    · have hy18 : 18 ≤ frequency_score y := by
        rcases le_or_lt 7 y with h7y | h7y
        · rw [frequency_score_eq_25 h7y]; norm_num
        rcases le_or_lt 5 y with h5y | h5y
        · rw [frequency_score_eq_22 h5y (not_le.mpr h7y)]; norm_num
        · rw [frequency_score_eq_18 h3y (not_le.mpr h5y)]
      have := frequency_bottom_le_17 h3x
      omega
    · rw [frequency_score_eq_bottom (not_le.mpr h3y)]
      have hfl : pyTrunc (x * 6) ≤ pyTrunc (y * 6) := by
        rw [pyTrunc_eq_floor (mul_nonneg hx (by norm_num)),
          pyTrunc_eq_floor (mul_nonneg (le_trans hx hxy) (by norm_num))]
        exact Int.floor_le_floor (by linarith)
      exact max_le_max (le_refl 0) hfl

/-- C9: the frequency component, as a function of `activities_per_week`
over the non-negative rationals (25 for ≥ 7, 22 for ≥ 5, 18 for ≥ 3,
otherwise `floor(apw * 6)` clamped to ≥ 0), is monotonically
non-decreasing, and reaches its ceiling 25 at every value ≥ 7. -/
theorem claim_C9_frequency_monotone :
    (∀ x y : ℚ, 0 ≤ x → x ≤ y → frequency_score x ≤ frequency_score y) ∧
    (∀ x : ℚ, 7 ≤ x → frequency_score x = 25) :=
  ⟨fun _ _ hx hxy => frequency_score_mono hx hxy, fun _ h => frequency_score_eq_25 h⟩

/-- Witness for C9 at `x = 2, y = 6` and at `x = 8`. -/
theorem claim_C9_frequency_monotone_witness :
    frequency_score 2 ≤ frequency_score 6 ∧ frequency_score 8 = 25 :=
  ⟨claim_C9_frequency_monotone.1 2 6 (by decide) (by decide),
   claim_C9_frequency_monotone.2 8 (by decide)⟩

theorem intensity_score_le_25 (d : DistResult) : intensity_score d ≤ 25 :=
  min_le_left _ _

theorem intensity_score_ge_10 (d : DistResult)
    (h : 0 < d.high_intensity.length + d.moderate_intensity.length
      + d.low_intensity.length) :
    10 ≤ intensity_score d := by
  unfold intensity_score
  dsimp only
  rw [if_pos h]
  refine le_min (by norm_num) ?_
  refine le_pyTrunc (by norm_num) ?_
  have hT : (0 : ℚ) < ((d.high_intensity.length + d.moderate_intensity.length
      + d.low_intensity.length : ℕ) : ℚ) := by exact_mod_cast h
  have hhf : (0 : ℚ) ≤ (d.high_intensity.length : ℚ) /
      ((d.high_intensity.length + d.moderate_intensity.length
        + d.low_intensity.length : ℕ) : ℚ) :=
    div_nonneg (by positivity) (le_of_lt hT)
  have hmf : (0 : ℚ) ≤ (d.moderate_intensity.length : ℚ) /
      ((d.high_intensity.length + d.moderate_intensity.length
        + d.low_intensity.length : ℕ) : ℚ) :=
    div_nonneg (by positivity) (le_of_lt hT)
  push_cast
  push_cast at hhf hmf
  nlinarith [hhf, hmf]

theorem intensity_score_nonneg (d : DistResult) : 0 ≤ intensity_score d := by
  rcases Nat.eq_zero_or_pos (d.high_intensity.length + d.moderate_intensity.length
      + d.low_intensity.length) with h0 | hpos
  · unfold intensity_score
    dsimp only
    rw [if_neg (by omega)]
    norm_num
  · have := intensity_score_ge_10 d hpos
    omega

theorem consistency_score_bounds (t : ℤ) (q : ℚ) :
    15 ≤ consistency_score t q ∧ consistency_score t q ≤ 25 := by
  unfold consistency_score
  split_ifs <;> norm_num

theorem variety_score_le_25 (l : List (String × ℕ)) : variety_score l ≤ 25 :=
  min_le_left _ _

theorem variety_score_nonneg (l : List (String × ℕ)) : 0 ≤ variety_score l := by
  unfold variety_score
  dsimp only
  have hb : (0 : ℤ) ≤ min ((l.length : ℤ) * 3) 15 :=
    le_min (by positivity) (by norm_num)
  refine le_min (by norm_num) ?_
  split_ifs <;> omega

theorem variety_score_ge_3 {l : List (String × ℕ)} (h : l ≠ []) :
    3 ≤ variety_score l := by
  have hlen : 1 ≤ l.length := List.length_pos.mpr h
  unfold variety_score
  dsimp only
  have hb : (3 : ℤ) ≤ min ((l.length : ℤ) * 3) 15 := by
    refine le_min ?_ (by norm_num)
    have : (1 : ℤ) ≤ (l.length : ℤ) := by exact_mod_cast hlen
    nlinarith
  refine le_min (by norm_num) ?_
  split_ifs <;> omega

/-- A `.full` score result of `calculate_fitness_score` always comes from
`mkScore` applied to the distribution and metrics results of the batch. -/
theorem score_full_elim {acts : List Activity} {s : ScoreResultFull}
    (h : calculate_fitness_score acts = .ok (.full s)) :
    ∃ d m, analyze_activity_distribution acts = .ok (some d) ∧
      calculate_training_metrics acts = .ok (some m) ∧ s = mkScore d m := by
  match acts with
  | [] => exact absurd h (by simp [calculate_fitness_score])
  | a :: rest =>
    simp only [calculate_fitness_score] at h
    cases h1 : analyze_activity_distribution (a :: rest) with
    | error e => rw [h1] at h; exact absurd h (by simp)
    | ok o =>
      rw [h1] at h
      match o with
      | Option.none => exact absurd h (by simp)
      | some d =>
        cases h2 : calculate_training_metrics (a :: rest) with
        | error e => rw [h2] at h; exact absurd h (by simp)
        | ok o2 =>
          rw [h2] at h
          match o2 with
          | Option.none => exact absurd h (by simp)
          | some m =>
            refine ⟨d, m, rfl, rfl, ?_⟩
            simp only at h
            exact (ScoreResult.full.inj (Except.ok.inj h)).symm

/-- C1: on every non-empty batch on which `calculate_fitness_score`
returns (rather than raising), each of the four component scores lies in
`[0, 25]` and `total_score` is exactly their sum, hence lies in
`[0, 100]`. -/
theorem claim_C1_score_bounds (acts : List Activity) (s : ScoreResultFull)
    (_hne : acts ≠ []) (h : calculate_fitness_score acts = .ok (.full s)) :
    (0 ≤ s.components.frequency ∧ s.components.frequency ≤ 25) ∧
    (0 ≤ s.components.intensity ∧ s.components.intensity ≤ 25) ∧
    (0 ≤ s.components.consistency ∧ s.components.consistency ≤ 25) ∧
    (0 ≤ s.components.variety ∧ s.components.variety ≤ 25) ∧
    s.total_score = s.components.frequency + s.components.intensity
      + s.components.consistency + s.components.variety ∧
    0 ≤ s.total_score ∧ s.total_score ≤ 100 := by
  obtain ⟨d, m, _, _, rfl⟩ := score_full_elim h
  unfold mkScore
  dsimp only
  have hf1 := frequency_score_nonneg m.activities_per_week
  have hf2 := frequency_score_le_25 m.activities_per_week
  have hi1 := intensity_score_nonneg d
  have hi2 := intensity_score_le_25 d
  have hc := consistency_score_bounds m.timespan_days m.activities_per_week
  have hv1 := variety_score_nonneg d.sport_distribution
  have hv2 := variety_score_le_25 d.sport_distribution
  refine ⟨⟨hf1, hf2⟩, ⟨hi1, hi2⟩, ⟨by omega, hc.2⟩, ⟨hv1, hv2⟩, rfl, by omega, by omega⟩

/-- Witness for C1 on the two-activity batch `batchC3`. -/
theorem claim_C1_score_bounds_witness :
    (0 ≤ (scoreOf batchC3).components.frequency ∧
      (scoreOf batchC3).components.frequency ≤ 25) ∧
    (0 ≤ (scoreOf batchC3).components.intensity ∧
      (scoreOf batchC3).components.intensity ≤ 25) ∧
    (0 ≤ (scoreOf batchC3).components.consistency ∧
      (scoreOf batchC3).components.consistency ≤ 25) ∧
    (0 ≤ (scoreOf batchC3).components.variety ∧
      (scoreOf batchC3).components.variety ≤ 25) ∧
    (scoreOf batchC3).total_score = (scoreOf batchC3).components.frequency
      + (scoreOf batchC3).components.intensity
      + (scoreOf batchC3).components.consistency
      + (scoreOf batchC3).components.variety ∧
    0 ≤ (scoreOf batchC3).total_score ∧ (scoreOf batchC3).total_score ≤ 100 :=
  claim_C1_score_bounds batchC3 (scoreOf batchC3) (by decide) (by rfl)

theorem bumpCount_length_pos (l : List (String × ℕ)) (s : String) :
    1 ≤ (bumpCount l s).length := by
  induction l with
  | nil => simp [bumpCount]
  | cons p rest ih =>
    obtain ⟨k, n⟩ := p
    unfold bumpCount
    split_ifs <;> simp

theorem bumpCount_length_ge (l : List (String × ℕ)) (s : String) :
    l.length ≤ (bumpCount l s).length := by
  induction l with
  | nil => simp [bumpCount]
  | cons p rest ih =>
    obtain ⟨k, n⟩ := p
    unfold bumpCount
    split_ifs <;> simp <;> omega

theorem analyzeLoop_bucket_sum (l : List Activity) :
    ∀ acc d : DistResult, analyzeLoop l acc = .ok d →
      d.high_intensity.length + d.moderate_intensity.length + d.low_intensity.length
        = acc.high_intensity.length + acc.moderate_intensity.length
          + acc.low_intensity.length + l.length := by
  induction l with
  | nil =>
    intro acc d h
    simp only [analyzeLoop] at h
    cases h
    simp
  | cons a rest ih =>
    intro acc d h
    simp only [analyzeLoop] at h
    cases hc : classifyActivity a with
    | error e => rw [hc] at h; exact absurd h (by simp)
    | ok i =>
      rw [hc] at h
      cases i <;> dsimp only at h <;>
        · have := ih _ _ h
          simp only [List.length_append, List.length_cons, List.length_nil] at this ⊢
          omega

theorem analyzeLoop_sport_le (l : List Activity) :
    ∀ acc d : DistResult, analyzeLoop l acc = .ok d →
      acc.sport_distribution.length ≤ d.sport_distribution.length := by
  induction l with
  | nil =>
    intro acc d h
    simp only [analyzeLoop] at h
    cases h
    exact le_refl _
  | cons a rest ih =>
    intro acc d h
    simp only [analyzeLoop] at h
    cases hc : classifyActivity a with
    | error e => rw [hc] at h; exact absurd h (by simp)
    | ok i =>
      rw [hc] at h
      cases i <;> dsimp only at h <;>
        · have h1 := ih _ _ h
          have h2 := bumpCount_length_ge acc.sport_distribution
            (normalizeSport a.getSport)
          dsimp only at h1
          omega

/-- On a non-empty batch, the distribution result partitions the batch
(bucket sizes sum to the batch size) and records at least one sport. -/
theorem analyze_some_props {a : Activity} {rest : List Activity} {d : DistResult}
    (h : analyze_activity_distribution (a :: rest) = .ok (some d)) :
    d.high_intensity.length + d.moderate_intensity.length + d.low_intensity.length
      = (a :: rest).length ∧ d.sport_distribution ≠ [] := by
  have hl : analyzeLoop (a :: rest) ⟨[], [], [], []⟩ = .ok d := by
    unfold analyze_activity_distribution at h
    cases hlp : analyzeLoop (a :: rest) ⟨[], [], [], []⟩ with
    | error e => rw [hlp] at h; exact absurd h (by simp [Except.map])
    | ok d0 =>
      rw [hlp] at h
      simp only [Except.map] at h
      rw [Option.some.inj (Except.ok.inj h)]
  constructor
  · have := analyzeLoop_bucket_sum _ _ _ hl
    simpa using this
  · simp only [analyzeLoop] at hl
    cases hc : classifyActivity a with
    | error e => rw [hc] at hl; exact absurd hl (by simp)
    | ok i =>
      rw [hc] at hl
      have hpos : 1 ≤ d.sport_distribution.length := by
        cases i <;> dsimp only at hl <;>
          · have h1 := analyzeLoop_sport_le _ _ _ hl
            have h2 := bumpCount_length_pos ([] : List (String × ℕ))
              (normalizeSport a.getSport)
            dsimp only at h1
            omega
      exact List.ne_nil_of_length_pos (by omega)

/-- C10 (implicit invariant): on every non-empty batch on which
`calculate_fitness_score` returns, the intensity component is at least 10,
the consistency component at least 15, the variety component at least 3,
the frequency component at least 0, and hence `total_score` is at least
28. -/
theorem claim_C10_total_floor (acts : List Activity) (s : ScoreResultFull)
    (hne : acts ≠ []) (h : calculate_fitness_score acts = .ok (.full s)) :
    10 ≤ s.components.intensity ∧ 15 ≤ s.components.consistency ∧
    3 ≤ s.components.variety ∧ 0 ≤ s.components.frequency ∧
    28 ≤ s.total_score := by
  obtain ⟨d, m, h1, _, rfl⟩ := score_full_elim h
  match acts, hne with
  | a :: rest, _ =>
    obtain ⟨hsum, hsport⟩ := analyze_some_props h1
    have hT : 0 < d.high_intensity.length + d.moderate_intensity.length
        + d.low_intensity.length := by
      rw [hsum]; simp
    unfold mkScore
    dsimp only
    have hi := intensity_score_ge_10 d hT
    have hc := (consistency_score_bounds m.timespan_days m.activities_per_week).1
    have hv := variety_score_ge_3 hsport
    have hf := frequency_score_nonneg m.activities_per_week
    exact ⟨hi, hc, hv, hf, by omega⟩

/-- Witness for C10 on the single-ride batch `[fullActivity]`. -/
theorem claim_C10_total_floor_witness :
    10 ≤ (scoreOf [fullActivity]).components.intensity ∧
    15 ≤ (scoreOf [fullActivity]).components.consistency ∧
    3 ≤ (scoreOf [fullActivity]).components.variety ∧
    0 ≤ (scoreOf [fullActivity]).components.frequency ∧
    28 ≤ (scoreOf [fullActivity]).total_score :=
  claim_C10_total_floor [fullActivity] (scoreOf [fullActivity]) (by decide) (by rfl)

/-- C2: on the batch of 7 `"Run"` activities, one per day over 7
consecutive days, each with 5000 m distance and 1800 s duration, the
pipeline yields `activities_per_week = 7`, frequency 25, sport
distribution `{"Run": 7}`, intensity distribution
`{high: 7, moderate: 0, low: 0}`, intensity 25, variety 3,
consistency 15 and `total_score` 68. -/
theorem claim_C2_example_batch :
    calculate_fitness_score batchC2 = .ok (.full (scoreOf batchC2)) ∧
    (metricsOf batchC2).activities_per_week = 7 ∧
    (scoreOf batchC2).components.frequency = 25 ∧
    (distOf batchC2).sport_distribution = [("Run", 7)] ∧
    (distOf batchC2).high_intensity.length = 7 ∧
    (distOf batchC2).moderate_intensity.length = 0 ∧
    (distOf batchC2).low_intensity.length = 0 ∧
    (scoreOf batchC2).components.intensity = 25 ∧
    (scoreOf batchC2).components.variety = 3 ∧
    (scoreOf batchC2).components.consistency = 15 ∧
    (scoreOf batchC2).total_score = 68 := by
  refine ⟨?_, ?_, ?_, ?_, ?_, ?_, ?_, ?_, ?_, ?_, ?_⟩ <;> with_unfolding_all rfl

/-- C3 counterexample: on the two-activity batch with one high and one low
activity the fractions are `h = 1/2, m = 0` and the exact intensity
expression is `17.5`; the code's `int()` truncation produces 17 while the
claimed round-to-nearest formula produces 18. -/
theorem claim_C3_counterexample :
    calculate_fitness_score batchC3 = .ok (.full (scoreOf batchC3)) ∧
    (distOf batchC3).high_intensity.length = 1 ∧
    (distOf batchC3).moderate_intensity.length = 0 ∧
    (distOf batchC3).low_intensity.length = 1 ∧
    (scoreOf batchC3).components.intensity = 17 ∧
    specIntensityScore (1/2) 0 = 18 ∧ (17 : ℤ) ≠ 18 := by
  refine ⟨?_, ?_, ?_, ?_, ?_, ?_, by decide⟩ <;> with_unfolding_all rfl

/-- C3 as amended: the intensity component is `int(...)` — truncation
toward zero — of `h*25 + m*20 + (1-h-m)*10` over the high/moderate
fractions of the classified activities, clamped to at most 25. -/
theorem claim_C3_amended (acts : List Activity) (s : ScoreResultFull) (d : DistResult)
    (h : calculate_fitness_score acts = .ok (.full s))
    (hd : analyze_activity_distribution acts = .ok (some d))
    (hpos : 0 < d.high_intensity.length + d.moderate_intensity.length
      + d.low_intensity.length) :
    s.components.intensity =
      min 25 (pyTrunc
        ((d.high_intensity.length : ℚ) /
            ((d.high_intensity.length + d.moderate_intensity.length
              + d.low_intensity.length : ℕ) : ℚ) * 25
          + (d.moderate_intensity.length : ℚ) /
            ((d.high_intensity.length + d.moderate_intensity.length
              + d.low_intensity.length : ℕ) : ℚ) * 20
          + (1 - (d.high_intensity.length : ℚ) /
              ((d.high_intensity.length + d.moderate_intensity.length
                + d.low_intensity.length : ℕ) : ℚ)
             - (d.moderate_intensity.length : ℚ) /
              ((d.high_intensity.length + d.moderate_intensity.length
                + d.low_intensity.length : ℕ) : ℚ)) * 10)) := by
  obtain ⟨d0, m, h1, _, rfl⟩ := score_full_elim h
  rw [h1] at hd
  obtain rfl : d0 = d := Option.some.inj (Except.ok.inj hd)
  show intensity_score d0 = _
  unfold intensity_score
  dsimp only
  rw [if_pos hpos]

/-- Witness for the amended C3 on `batchC3` (`h = 1/2`, `m = 0`,
truncated score 17). -/
theorem claim_C3_amended_witness :
    (scoreOf batchC3).components.intensity =
      min 25 (pyTrunc
        (((distOf batchC3).high_intensity.length : ℚ) /
            (((distOf batchC3).high_intensity.length
              + (distOf batchC3).moderate_intensity.length
              + (distOf batchC3).low_intensity.length : ℕ) : ℚ) * 25
          + ((distOf batchC3).moderate_intensity.length : ℚ) /
            (((distOf batchC3).high_intensity.length
              + (distOf batchC3).moderate_intensity.length
              + (distOf batchC3).low_intensity.length : ℕ) : ℚ) * 20
          + (1 - ((distOf batchC3).high_intensity.length : ℚ) /
              (((distOf batchC3).high_intensity.length
                + (distOf batchC3).moderate_intensity.length
                + (distOf batchC3).low_intensity.length : ℕ) : ℚ)
             - ((distOf batchC3).moderate_intensity.length : ℚ) /
              (((distOf batchC3).high_intensity.length
                + (distOf batchC3).moderate_intensity.length
                + (distOf batchC3).low_intensity.length : ℕ) : ℚ)) * 10)) :=
  claim_C3_amended batchC3 (scoreOf batchC3) (distOf batchC3)
    (by with_unfolding_all rfl) (by with_unfolding_all rfl) (by decide)

/-- C4 counterexample: on the empty batch `calculate_training_metrics`
returns the empty dict `{}` (embedded as `Option.none`), not a populated
metrics record with all totals zero. -/
theorem claim_C4_counterexample :
    calculate_training_metrics ([] : List Activity) = .ok Option.none ∧
    calculate_training_metrics ([] : List Activity) ≠ .ok (some zeroMetrics) :=
  ⟨rfl, fun h => Option.noConfusion (Except.ok.inj h)⟩

/-- C4 as amended: on the empty batch every stage returns its well-defined
degenerate result rather than raising — the distribution and metrics
results are the empty dict `{}`, the score result is
`{total_score: 0, components: {}, insights: []}` and the validation result
is `{valid: false, quality_score: 0, issues: ["No activities provided"]}`
(with no completeness key). -/
theorem claim_C4_amended :
    analyze_activity_distribution ([] : List Activity) = .ok Option.none ∧
    calculate_training_metrics ([] : List Activity) = .ok Option.none ∧
    calculate_fitness_score ([] : List Activity) = .ok .empty ∧
    validate_activity_data ([] : List Activity) =
      .ok ⟨false, 0, Option.none, ["No activities provided"]⟩ :=
  ⟨rfl, rfl, rfl, rfl⟩

/-- C5 counterexample: a single activity whose `distance_meters` is the
string `"5000"` makes the metrics aggregator, the fitness-score call and
the validator all raise `TypeError` (in CPython at `distance_m / 1000` and
at `a.get('distance_meters', 0) > 0`), refuting totality over arbitrary
JSON-like field values. -/
theorem claim_C5_counterexample :
    calculate_training_metrics [badActivity] = .error ("TypeError") ∧
    calculate_fitness_score [badActivity] = .error ("TypeError") ∧
    validate_activity_data [badActivity] = .error ("TypeError") :=
  ⟨rfl, rfl, rfl⟩


theorem numericOrAbsent_getD {o : Option PyVal} (h : numericOrAbsent o = true) :
    ((Option.getD o (PyVal.pyInt 0)).toRat).isSome := by
  cases o with
  | none => rfl
  | some v => simpa [numericOrAbsent] using h

theorem getDurationOr_numeric {a : Activity}
    (hm : numericOrAbsent a.moving_time_seconds = true)
    (hd : numericOrAbsent a.duration_seconds = true) :
    ((a.getDurationOr).toRat).isSome := by
  unfold Activity.getDurationOr
  dsimp only
  split_ifs
  · exact numericOrAbsent_getD hm
  · exact numericOrAbsent_getD hd

theorem pyGt_ok_of_numeric {v : PyVal} (h : (v.toRat).isSome) (k : ℚ) :
    ∃ b, pyGt v k = .ok b := by
  obtain ⟨q, hq⟩ := Option.isSome_iff_exists.mp h
  unfold pyGt
  rw [hq]
  exact ⟨_, rfl⟩

theorem pyAndGt_ok_of_numeric {v : PyVal} (h : (v.toRat).isSome) (c : Bool) (k : ℚ) :
    ∃ b, pyAndGt c v k = .ok b := by
  unfold pyAndGt
  cases c with
  | true => simpa using pyGt_ok_of_numeric h k
  | false => exact ⟨false, by simp⟩

/-- Unpacking of the four Boolean conjuncts of `SafeActivity`. -/
theorem safeActivity_fields {a : Activity} (h : SafeActivity a = true) :
    numericOrAbsent a.distance_meters = true ∧
    numericOrAbsent a.duration_seconds = true ∧
    numericOrAbsent a.moving_time_seconds = true ∧
    numericOrAbsent a.elevation_gain = true := by
  unfold SafeActivity at h
  simp only [Bool.and_eq_true] at h
  exact ⟨h.1.1.1, h.1.1.2, h.1.2, h.2⟩

theorem classifyActivity_ok {a : Activity} (h : ((a.getDurationOr).toRat).isSome) :
    ∃ i, classifyActivity a = .ok i := by
  obtain ⟨q, hq⟩ := Option.isSome_iff_exists.mp h
  unfold classifyActivity pyAndGt pyGt
  dsimp only
  rw [hq]
  split_ifs <;> by_cases h18 : (1800 : ℚ) < q <;> by_cases h12 : (1200 : ℚ) < q <;>
    simp [h18, h12]

theorem analyzeLoop_ok (l : List Activity) :
    (∀ a ∈ l, SafeActivity a = true) → ∀ acc, ∃ d, analyzeLoop l acc = .ok d := by
  induction l with
  | nil => exact fun _ acc => ⟨acc, rfl⟩
  | cons a rest ih =>
    intro hsafe acc
    obtain ⟨_, h2, h3, _⟩ := safeActivity_fields (hsafe a (by simp))
    obtain ⟨i, hi⟩ := classifyActivity_ok (getDurationOr_numeric h3 h2)
    have hrest : ∀ x ∈ rest, SafeActivity x = true := fun x hx => hsafe x (by simp [hx])
    simp only [analyzeLoop]
    rw [hi]
    cases i <;> exact ih hrest _

theorem analyze_ok_of_safe (acts : List Activity)
    (hsafe : ∀ a ∈ acts, SafeActivity a = true) :
    ∃ x, analyze_activity_distribution acts = .ok x := by
  cases acts with
  | nil => exact ⟨Option.none, rfl⟩
  | cons a rest =>
    obtain ⟨d, hd⟩ := analyzeLoop_ok (a :: rest) hsafe ⟨[], [], [], []⟩
    refine ⟨some d, ?_⟩
    unfold analyze_activity_distribution
    rw [hd]
    rfl

theorem addSample_ok {v : PyVal} (h : (v.toRat).isSome) (scale : ℚ)
    (samples : List ℚ) (total : ℚ) :
    ∃ r, addSample v scale samples total = .ok r := by
  obtain ⟨q, hq⟩ := Option.isSome_iff_exists.mp h
  unfold addSample
  rw [hq]
  split_ifs <;> exact ⟨_, rfl⟩

theorem metricsLoop_ok (l : List Activity) :
    (∀ a ∈ l, SafeActivity a = true) → ∀ acc, ∃ r, metricsLoop l acc = .ok r := by
  induction l with
  | nil => exact fun _ acc => ⟨acc, rfl⟩
  | cons a rest ih =>
    intro hsafe acc
    obtain ⟨h1, h2, h3, h4⟩ := safeActivity_fields (hsafe a (by simp))
    obtain ⟨⟨ds, td⟩, hr1⟩ := addSample_ok (numericOrAbsent_getD h1) 1000
      acc.distances acc.total_distance
    obtain ⟨⟨us, tu⟩, hr2⟩ := addSample_ok (getDurationOr_numeric h3 h2) 60
      acc.durations acc.total_duration
    obtain ⟨⟨es, te⟩, hr3⟩ := addSample_ok (numericOrAbsent_getD h4) 1
      acc.elevations acc.total_elevation
    have hrest : ∀ x ∈ rest, SafeActivity x = true := fun x hx => hsafe x (by simp [hx])
    simp only [metricsLoop]
    rw [hr1]
    dsimp only
    rw [hr2]
    dsimp only
    rw [hr3]
    dsimp only
    exact ih hrest _

theorem metrics_ok_of_safe (acts : List Activity)
    (hsafe : ∀ a ∈ acts, SafeActivity a = true) :
    ∃ x, calculate_training_metrics acts = .ok x := by
  cases acts with
  | nil => exact ⟨Option.none, rfl⟩
  | cons a rest =>
    obtain ⟨r, hr⟩ := metricsLoop_ok (a :: rest) hsafe ⟨[], [], [], [], 0, 0, 0⟩
    unfold calculate_training_metrics
    rw [hr]
    exact ⟨_, rfl⟩

theorem countDistanceOk_ok (l : List Activity)
    (hsafe : ∀ a ∈ l, SafeActivity a = true) :
    ∃ n, countDistanceOk l = .ok n := by
  induction l with
  | nil => exact ⟨0, rfl⟩
  | cons a rest ih =>
    obtain ⟨h1, _, _, _⟩ := safeActivity_fields (hsafe a (by simp))
    obtain ⟨b, hb⟩ := pyGt_ok_of_numeric (numericOrAbsent_getD h1) 0
    obtain ⟨n, hn⟩ := ih (fun x hx => hsafe x (by simp [hx]))
    refine ⟨(if b then 1 else 0) + n, ?_⟩
    simp only [countDistanceOk]
    rw [hb, hn]

theorem countDurationOk_ok (l : List Activity)
    (hsafe : ∀ a ∈ l, SafeActivity a = true) :
    ∃ n, countDurationOk l = .ok n := by
  induction l with
  | nil => exact ⟨0, rfl⟩
  | cons a rest ih =>
    obtain ⟨_, h2, h3, _⟩ := safeActivity_fields (hsafe a (by simp))
    obtain ⟨b1, hb1⟩ := pyGt_ok_of_numeric (numericOrAbsent_getD h3) 0
    obtain ⟨n, hn⟩ := ih (fun x hx => hsafe x (by simp [hx]))
    have hdp : ∃ b, durationPresent a = .ok b := by
      unfold durationPresent
      rw [hb1]
      cases b1 with
      | true => exact ⟨true, rfl⟩
      | false => simpa using pyGt_ok_of_numeric (numericOrAbsent_getD h2) 0
    obtain ⟨b, hb⟩ := hdp
    refine ⟨(if b then 1 else 0) + n, ?_⟩
    simp only [countDurationOk]
    rw [hb, hn]

theorem validate_ok_of_safe (acts : List Activity)
    (hsafe : ∀ a ∈ acts, SafeActivity a = true) :
    ∃ x, validate_activity_data acts = .ok x := by
  cases acts with
  | nil => exact ⟨_, rfl⟩
  | cons a rest =>
    obtain ⟨cd, hcd⟩ := countDistanceOk_ok (a :: rest) hsafe
    obtain ⟨cu, hcu⟩ := countDurationOk_ok (a :: rest) hsafe
    unfold validate_activity_data
    rw [hcd]
    dsimp only
    rw [hcu]
    exact ⟨_, rfl⟩

theorem score_ok_of_safe (acts : List Activity)
    (hsafe : ∀ a ∈ acts, SafeActivity a = true) :
    ∃ x, calculate_fitness_score acts = .ok x := by
  cases acts with
  | nil => exact ⟨.empty, rfl⟩
  | cons a rest =>
    obtain ⟨d, hd⟩ := analyzeLoop_ok (a :: rest) hsafe ⟨[], [], [], []⟩
    obtain ⟨r, hr⟩ := metricsLoop_ok (a :: rest) hsafe ⟨[], [], [], [], 0, 0, 0⟩
    have h1 : analyze_activity_distribution (a :: rest) = .ok (some d) := by
      unfold analyze_activity_distribution
      rw [hd]
      rfl
    have h2 : ∃ m, calculate_training_metrics (a :: rest) = .ok (some m) := by
      unfold calculate_training_metrics
      rw [hr]
      exact ⟨_, rfl⟩
    obtain ⟨m, h2⟩ := h2
    unfold calculate_fitness_score
    rw [h1, h2]
    exact ⟨_, rfl⟩

/-- C5 as amended: the pipeline is total over batches of activities whose
arithmetic-bearing fields (distance, duration, moving time, elevation) are
each absent or numeric — missing fields, arbitrary `sport_type` values and
arbitrary/unparsable `start_date` values never raise — but (per the
counterexample) a truthy non-numeric value in one of those fields raises
`TypeError`. -/
theorem claim_C5_amended (acts : List Activity)
    (hsafe : ∀ a ∈ acts, SafeActivity a = true) :
    (∃ x, analyze_activity_distribution acts = .ok x) ∧
    (∃ x, calculate_training_metrics acts = .ok x) ∧
    (∃ x, calculate_fitness_score acts = .ok x) ∧
    (∃ x, validate_activity_data acts = .ok x) :=
  ⟨analyze_ok_of_safe acts hsafe, metrics_ok_of_safe acts hsafe,
   score_ok_of_safe acts hsafe, validate_ok_of_safe acts hsafe⟩

/-- Witness for the amended C5 on a batch mixing a fully-populated
activity, an empty one and one with arbitrary sport/date junk. -/
theorem claim_C5_amended_witness :
    (∃ x, analyze_activity_distribution
      [fullActivity, emptyActivity, junkSafeActivity] = .ok x) ∧
    (∃ x, calculate_training_metrics
      [fullActivity, emptyActivity, junkSafeActivity] = .ok x) ∧
    (∃ x, calculate_fitness_score
      [fullActivity, emptyActivity, junkSafeActivity] = .ok x) ∧
    (∃ x, validate_activity_data
      [fullActivity, emptyActivity, junkSafeActivity] = .ok x) :=
  claim_C5_amended [fullActivity, emptyActivity, junkSafeActivity] (by decide)


/-- C6: for every activity whose moving-or-duration seconds value is
numeric with value `d`, the source classification equals the spec's exact
first-match-wins precedence over the normalized sport string and `d`:
run → high; ride ∧ d > 1800 → high; hike/walk ∧ d > 1200 → moderate;
ride → moderate; otherwise low. -/
theorem claim_C6_classification (a : Activity) (q : ℚ)
    (hq : (a.getDurationOr).toRat = some q) :
    classifyActivity a = .ok (specClassify (normalizeSport a.getSport) q) := by
  unfold classifyActivity specClassify pyAndGt pyGt
  dsimp only
  rw [hq]
  dsimp only
  cases h18 : decide ((1800 : ℚ) < q) <;> cases h12 : decide ((1200 : ℚ) < q) <;>
    split_ifs <;>
    simp_all [decide_eq_true_eq, decide_eq_false_iff_not]

/-- Witness for C6 on `fullActivity` (a 3600 s ride, classified high). -/
theorem claim_C6_classification_witness :
    classifyActivity fullActivity =
      .ok (specClassify (normalizeSport fullActivity.getSport) 3600) :=
  claim_C6_classification fullActivity 3600 rfl

/-- C7: on every non-empty batch on which the validator returns, the
quality score is the arithmetic mean of the four completeness ratios
(distance, duration, sport type, date) times 100, `valid` holds exactly
when the quality score is at least 70, and the issue list consists of
exactly one formatted issue string for each ratio below its fixed
threshold (distance 0.8, duration 0.9, sport type 0.95, date 0.95), in
that order. -/
theorem claim_C7_validator (acts : List Activity) (r : ValidationResult) (cd cu : ℕ)
    (hne : acts ≠ [])
    (h : validate_activity_data acts = .ok r)
    (hcd : countDistanceOk acts = .ok cd)
    (hcu : countDurationOk acts = .ok cu) :
    r.quality_score = ((cd : ℚ) / (acts.length : ℚ) + (cu : ℚ) / (acts.length : ℚ)
      + (countSport acts : ℚ) / (acts.length : ℚ)
      + (countDate acts : ℚ) / (acts.length : ℚ)) / 4 * 100 ∧
    (r.valid = true ↔ (70 : ℚ) ≤ r.quality_score) ∧
    r.issues =
      (if (cd : ℚ) / (acts.length : ℚ) < 4/5 then
        ["Low distance completeness: " ++ fmtPct ((cd : ℚ) / (acts.length : ℚ))] else [])
      ++ (if (cu : ℚ) / (acts.length : ℚ) < 9/10 then
        ["Low duration completeness: " ++ fmtPct ((cu : ℚ) / (acts.length : ℚ))] else [])
      ++ (if (countSport acts : ℚ) / (acts.length : ℚ) < 19/20 then
        ["Low sport type completeness: "
          ++ fmtPct ((countSport acts : ℚ) / (acts.length : ℚ))] else [])
      ++ (if (countDate acts : ℚ) / (acts.length : ℚ) < 19/20 then
        ["Low date completeness: " ++ fmtPct ((countDate acts : ℚ) / (acts.length : ℚ))]
        else []) := by
  match acts, hne with
  | a :: rest, _ =>
    unfold validate_activity_data at h
    rw [hcd] at h
    dsimp only at h
    rw [hcu] at h
    dsimp only at h
    have hr := (Except.ok.inj h).symm
    subst hr
    refine ⟨rfl, ?_, rfl⟩
    exact decide_eq_true_iff

/-- Witness for C7 on the single-activity batch `[fullActivity]`
(all four ratios 1, quality 100, valid, no issues). -/
theorem claim_C7_validator_witness :
    (validationOf [fullActivity]).quality_score = 100 ∧
    ((validationOf [fullActivity]).valid = true ↔
      (70 : ℚ) ≤ (validationOf [fullActivity]).quality_score) ∧
    (validationOf [fullActivity]).issues = [] := by
  have h := claim_C7_validator [fullActivity] (validationOf [fullActivity]) 1 1
    (by decide) (by rfl) rfl rfl
  obtain ⟨h1, h2, h3⟩ := h
  refine ⟨?_, h2, ?_⟩
  · rw [h1]
    with_unfolding_all rfl
  · rw [h3]
    with_unfolding_all rfl

theorem countSport_eq_zero {l : List Activity}
    (hall : ∀ a ∈ l, a.sport_type = Option.none) : countSport l = 0 := by
  induction l with
  | nil => rfl
  | cons a rest ih =>
    have ha : a.sport_type = Option.none := hall a (by simp)
    have hrest : countSport rest = 0 := ih (fun x hx => hall x (by simp [hx]))
    simp only [countSport, List.filter_cons, ha] at hrest ⊢
    simpa [Option.getD, PyVal.truthy] using hrest

/-- C8 counterexample: on the batch of one activity with no fields at all
(in particular no `sport_type`), the validator reports sport-type
completeness 0, not 1, and does emit the low-sport-type issue — the
`"unknown"` placeholder exists only inside the distribution analyzer and
never reaches the validator, which reads the raw field. -/
theorem claim_C8_counterexample :
    validate_activity_data [emptyActivity] =
      .ok ⟨false, 0, some (0, 0, 0, 0),
        ["Low distance completeness: 0.0%", "Low duration completeness: 0.0%",
         "Low sport type completeness: 0.0%", "Low date completeness: 0.0%"]⟩ ∧
    (0 : ℚ) ≠ 1 := by
  refine ⟨by with_unfolding_all rfl, by decide⟩

/-- C8 as amended: on every non-empty batch in which every activity lacks
a `sport_type` value, the validator's sport-type completeness ratio is 0.0
(an absent raw field is counted as not present) and the low-sport-type
issue string is emitted. -/
theorem claim_C8_amended (acts : List Activity) (r : ValidationResult)
    (hne : acts ≠ []) (hall : ∀ a ∈ acts, a.sport_type = Option.none)
    (h : validate_activity_data acts = .ok r) :
    r.completeness.map (fun c => c.2.2.1) = some 0 ∧
    ("Low sport type completeness: " ++ fmtPct 0) ∈ r.issues := by
  match acts, hne with
  | a :: rest, _ =>
    have hcs : countSport (a :: rest) = 0 := countSport_eq_zero hall
    unfold validate_activity_data at h
    cases hcd : countDistanceOk (a :: rest) with
    | error e => rw [hcd] at h; exact absurd h (by simp)
    | ok cd =>
      rw [hcd] at h
      dsimp only at h
      cases hcu : countDurationOk (a :: rest) with
      | error e => rw [hcu] at h; exact absurd h (by simp)
      | ok cu =>
        rw [hcu] at h
        dsimp only at h
        have hr := (Except.ok.inj h).symm
        subst hr
        rw [hcs]
        have hzero : ((0 : ℕ) : ℚ) / (((a :: rest).length : ℕ) : ℚ) = 0 := by
          simp
        constructor
        · simp only [Option.map]
          rw [hzero]
        · rw [hzero]
          have : (0 : ℚ) < 19/20 := by norm_num
          rw [if_pos this]
          simp

/-- Witness for the amended C8 on the batch `[emptyActivity]`. -/
theorem claim_C8_amended_witness :
    (validationOf [emptyActivity]).completeness.map (fun c => c.2.2.1) = some 0 ∧
    ("Low sport type completeness: " ++ fmtPct 0) ∈ (validationOf [emptyActivity]).issues :=
  claim_C8_amended [emptyActivity] (validationOf [emptyActivity])
    (by decide) (by decide) (by rfl)

end DataUtils
